import Mathlib

/-!
Shallow embedding of the quantized layer-norm kernel
(`backends/cadence/hifi/operators/op_quantized_layer_norm.cpp`) and of the
boxed-numeric conversion utility
(`extension/apple/ExecuTorch/Internal/ExecuTorchUtils.h`).

Modelling conventions:
* `int32_t` accumulator arithmetic is `ℤ` with an explicit two's-complement
  wrap `wrap32` everywhere a value is stored back into a 32-bit variable;
  the 64-bit intermediate products (`int64_t` promotions) are exact `ℤ`.
* Float arithmetic (`XT_MUL_S`, `XT_DIV_S`, `XT_ADD_S`, `XT_RECIP_S`) is
  modelled exactly over `ℚ`; the inverse-square-root primitive
  `XT_RECIP_S(XT_SQRT_S(.))` has no rational counterpart and is passed in
  as an abstract function `invSqrt : ℚ → ℚ`.
* Fatal runtime checks (`ET_DCHECK_MSG` on the unhandled-dtype branch) are
  modelled as an `Except` error result.
-/

/-- Runtime dtype tags (the subset relevant to these operators). -/
inductive ScalarType where
  | Byte
  | Char
  | Short
  | Int
  | Long
  | Float
  | Double
  deriving DecidableEq, Repr

/-- Modelled from the spec: minimum representable code of an integer storage
type ("saturated to the destination dtype's min/max"); the floating tags never
reach the quantizer and get a degenerate range. -/
def dtypeMin : ScalarType → ℤ
  | .Byte => 0
  | .Char => -128
  | .Short => -32768
  | .Int => -(2 ^ 31)
  | .Long => -(2 ^ 63)
  | .Float => 0
  | .Double => 0

/-- Modelled from the spec: maximum representable code of an integer storage
type. -/
def dtypeMax : ScalarType → ℤ
  | .Byte => 255
  | .Char => 127
  | .Short => 32767
  | .Int => 2 ^ 31 - 1
  | .Long => 2 ^ 63 - 1
  | .Float => 0
  | .Double => 0

/-- Modelled from the spec: the closed support set compiled into the dispatch
switch (`ET_FORALL_CADENCE_QUANTIZED_TYPES`, not part of the excerpt): 8-bit
unsigned and 8-bit signed codes ("quantize the result to an int8/uint8
value"). -/
def supportedQuantizedTypes : List ScalarType := [ScalarType.Byte, ScalarType.Char]

/-- Two's-complement wrap of an integer into the `int32_t` range, applied at
every store into a 32-bit variable. -/
def wrap32 (a : ℤ) : ℤ := (a + 2 ^ 31) % 2 ^ 32 - 2 ^ 31

/-- `a` is representable as an `int32_t` (no overflow at a 32-bit store). -/
def inI32 (a : ℤ) : Prop := -(2 ^ 31) ≤ a ∧ a < 2 ^ 31

instance (a : ℤ) : Decidable (inI32 a) := inferInstanceAs (Decidable (_ ∧ _))

/-- One iteration of the accumulation loop (line 63-67):
`sum += val; sq_sum += val * val;` with both stores wrapping at 32 bits and
the `int32_t` product `val * val` wrapping as well. -/
def accumStep (s : ℤ × ℤ) (v : ℤ) : ℤ × ℤ :=
  (wrap32 (s.1 + v), wrap32 (s.2 + wrap32 (v * v)))

/-- The per-row integer accumulation of `quantized_layer_norm_per_tensor_`
(lines 60-69): initialize `sq_sum = last_dim * zp * zp`, fold the row through
`accumStep`, then `sq_sum -= 2 * sum * zp` (the `int` product `2 * sum` wraps
at 32 bits before the `int64_t` multiply) and `sum -= last_dim * zp`.
Returns the final `(sum, sq_sum)` pair. -/
def rowAccum (z : ℤ) (xs : List ℤ) : ℤ × ℤ :=
  let n : ℤ := xs.length
  let s := xs.foldl accumStep (0, wrap32 (n * z * z))
  (wrap32 (s.1 - n * z), wrap32 (s.2 - wrap32 (2 * s.1) * z))

/-- Line 71: `mean = XT_DIV_S(XT_MUL_S(input_scale, sum), last_dim)`. -/
def rowMean (input_scale : ℚ) (n : ℕ) (sum : ℤ) : ℚ :=
  input_scale * sum / n

/-- Lines 72-75: `variance = sq_sum * (input_scale * input_scale) / last_dim
- mean * mean`. -/
def rowVariance (input_scale : ℚ) (n : ℕ) (sq_sum : ℤ) (mean : ℚ) : ℚ :=
  sq_sum * (input_scale * input_scale) / n - mean * mean

/-- Line 76, the argument of `XT_SQRT_S`: `XT_ADD_S(variance, (float)eps)`.
The computed variance is passed through unchanged — there is no clamp. -/
def rowInvStdArg (variance eps : ℚ) : ℚ := variance + eps

/-- Modelled from the spec: `kernels::dequantize<T>` from
`backends/cadence/hifi/kernels/kernels.h` (not part of the excerpt):
`(code - zero_point) * scale`. -/
def dequantize (code : ℤ) (scale : ℚ) (zero_point : ℤ) : ℚ :=
  (code - zero_point) * scale

/-- Modelled from the spec: `kernels::quantize<T>` from
`backends/cadence/hifi/kernels/kernels.h` (not part of the excerpt):
`round(value * inv_scale) + zero_point`, saturated to the destination
dtype's min/max. -/
def quantize (dtype : ScalarType) (value : ℚ) (inv_scale : ℚ) (zero_point : ℤ) : ℤ :=
  max (dtypeMin dtype) (min (dtypeMax dtype) (round (value * inv_scale) + zero_point))

/-- The normalization engine `quantized_layer_norm_per_tensor_` (lines 30-90),
on a flat row-major buffer of `leading_dims * last_dim` codes.  For each row:
the 32-bit integer accumulation `rowAccum`, the float statistics `rowMean` /
`rowVariance`, `inv_std = invSqrt (rowInvStdArg variance eps)`, then each
element is dequantized, normalized, affinely transformed and requantized with
`output_inv_scale = 1 / output_scale` (`XT_RECIP_S`). -/
def quantized_layer_norm_per_tensor_ (invSqrt : ℚ → ℚ) (dtype : ScalarType)
    (input : List ℤ) (input_scale : ℚ) (input_zero_point : ℤ)
    (weight bias : List ℚ) (eps : ℚ) (output_scale : ℚ) (output_zero_point : ℤ)
    (leading_dims last_dim : ℕ) : List ℤ :=
  let output_inv_scale := 1 / output_scale
  (List.range leading_dims).flatMap fun i =>
    let x := (input.drop (i * last_dim)).take last_dim
    let s := rowAccum input_zero_point x
    let mean := rowMean input_scale last_dim s.1
    let variance := rowVariance input_scale last_dim s.2 mean
    let inv_std := invSqrt (rowInvStdArg variance eps)
    (List.range last_dim).map fun j =>
      let val := dequantize (x.getD j 0) input_scale input_zero_point
      quantize dtype ((val - mean) * inv_std * weight.getD j 0 + bias.getD j 0)
        output_inv_scale output_zero_point

/-- A quantized tensor: dtype tag, dimension sizes, and the flat row-major
buffer of integer codes. -/
structure QTensor where
  dtype : ScalarType
  sizes : List ℕ
  data : List ℤ
  deriving DecidableEq, Repr

/-- A single-precision float tensor (the `in_scale` argument); payloads are
the exact rational values of the stored 32-bit floats. -/
structure FTensor where
  data : List ℚ
  deriving DecidableEq, Repr

/-- A 64-bit integer tensor (the `in_zero_point` argument). -/
structure LTensor where
  data : List ℤ
  deriving DecidableEq, Repr

/-- `input.size(input.dim() - 1)`: the trailing dimension size. -/
def lastDimOf (sizes : List ℕ) : ℕ := sizes.getLastD 1

/-- Modelled from the spec: `getLeadingDims` from the runtime headers (not
part of the excerpt) — "the product of all other dimensions". -/
def getLeadingDims (sizes : List ℕ) : ℕ := sizes.dropLast.prod

/-- A floating-point scalar together with the storage precision of the C
variable holding it; payloads are exact rational values. -/
inductive PrecFloat where
  | f32 (val : ℚ)
  | f64 (val : ℚ)
  deriving DecidableEq, Repr

/-- The numeric payload, precision tag forgotten. -/
def PrecFloat.val : PrecFloat → ℚ
  | .f32 v => v
  | .f64 v => v

/-- Whether the value is held in a 64-bit (`double`) variable. -/
def PrecFloat.isF64 : PrecFloat → Bool
  | .f32 _ => false
  | .f64 _ => true

/-- The quantization-parameter extraction of `quantized_layer_norm_`
(lines 105-107): `float input_scale = in_scale.const_data_ptr<float>()[0];`
(a 32-bit float read and a 32-bit float variable, hence the `.f32` tag) and
`int64_t input_zero_point = in_zero_point.const_data_ptr<int64_t>()[0];`. -/
def extractQuantParams (in_scale : FTensor) (in_zero_point : LTensor) :
    PrecFloat × ℤ :=
  (PrecFloat.f32 (in_scale.data.headD 0), in_zero_point.data.headD 0)

/-- `quantized_layer_norm_` (lines 95-120): extract the per-tensor scale and
zero-point from the single-element tensors, then call the per-tensor
overload. -/
def quantized_layer_norm_ (invSqrt : ℚ → ℚ) (dtype : ScalarType)
    (input : List ℤ) (in_scale : FTensor) (in_zero_point : LTensor)
    (weight bias : List ℚ) (eps : ℚ) (output_scale : ℚ) (output_zero_point : ℤ)
    (leading_dims last_dim : ℕ) : List ℤ :=
  let p := extractQuantParams in_scale in_zero_point
  quantized_layer_norm_per_tensor_ invSqrt dtype input p.1.val p.2
    weight bias eps output_scale output_zero_point leading_dims last_dim

/-- The fatal conditions of the operator entry points.  `ET_DCHECK_MSG(false,
"Unhandled dtype ...")` on the default switch branch is modelled from the
spec as a fatal abort ("an `UnsupportedDType` condition ... the kernel aborts
immediately"). -/
inductive KernelError where
  | UnsupportedDType
  deriving DecidableEq, Repr

/-- Entry point `quantized_layer_norm_out` (lines 122-158, Variant A):
dispatches on `input.scalar_type()` over the compiled support set; an
unhandled dtype aborts.  `normalized_shape` is `__ET_UNUSED` and `out` is
only written through, never consulted; the result is the buffer written into
`out`. -/
def quantized_layer_norm_out (invSqrt : ℚ → ℚ) (input : QTensor)
    (in_scale : FTensor) (in_zero_point : LTensor)
    (normalized_shape : List ℕ) (weight bias : List ℚ) (eps : ℚ)
    (output_scale : ℚ) (output_zero_point : ℤ) (out : QTensor) :
    Except KernelError (List ℤ) :=
  match input.dtype with
  | .Byte =>
      .ok (quantized_layer_norm_ invSqrt .Byte input.data in_scale in_zero_point
        weight bias eps output_scale output_zero_point
        (getLeadingDims input.sizes) (lastDimOf input.sizes))
  | .Char =>
      .ok (quantized_layer_norm_ invSqrt .Char input.data in_scale in_zero_point
        weight bias eps output_scale output_zero_point
        (getLeadingDims input.sizes) (lastDimOf input.sizes))
  | _ => .error .UnsupportedDType

/-- Entry point `quantized_layer_norm_per_tensor_out` (lines 160-196,
Variant B): same dispatch, with the quantization parameters passed as
scalars. -/
def quantized_layer_norm_per_tensor_out (invSqrt : ℚ → ℚ) (input : QTensor)
    (in_scale : ℚ) (in_zero_point : ℤ)
    (normalized_shape : List ℕ) (weight bias : List ℚ) (eps : ℚ)
    (output_scale : ℚ) (output_zero_point : ℤ) (out : QTensor) :
    Except KernelError (List ℤ) :=
  match input.dtype with
  | .Byte =>
      .ok (quantized_layer_norm_per_tensor_ invSqrt .Byte input.data
        in_scale in_zero_point weight bias eps output_scale output_zero_point
        (getLeadingDims input.sizes) (lastDimOf input.sizes))
  | .Char =>
      .ok (quantized_layer_norm_per_tensor_ invSqrt .Char input.data
        in_scale in_zero_point weight bias eps output_scale output_zero_point
        (getLeadingDims input.sizes) (lastDimOf input.sizes))
  | _ => .error .UnsupportedDType

/-! The boxed-numeric conversion utility (`ExecuTorchUtils.h`). -/

/-- The lowercased first character of `[number objCType]` for the numeric
encodings handled by `deduceScalarType`; an encoding outside this set aborts
(`ET_CHECK_MSG(false, "Unsupported type")`) and is not modelled. -/
inductive ObjCTypeTag where
  | c
  | s
  | i
  | q
  | l
  | f
  | d
  deriving DecidableEq, Repr

/-- A boxed `NSNumber`: the type-encoding tag and, for integrally tagged
numbers, the exact stored integer (the payload of floating-tagged numbers is
irrelevant to integral extraction, which rejects them before any read). -/
structure NSNumber where
  tag : ObjCTypeTag
  ival : ℤ
  deriving DecidableEq, Repr

/-- `deduceScalarType` (lines 26-44): maps the lowercased type encoding to a
ScalarType; note `c` maps to `Byte`. -/
def deduceScalarType (number : NSNumber) : ScalarType :=
  match number.tag with
  | .c => .Byte
  | .s => .Short
  | .i => .Int
  | .q => .Long
  | .l => .Long
  | .f => .Float
  | .d => .Double

/-- `executorch::runtime::isFloatingType` restricted to the tags above. -/
def isFloatingType : ScalarType → Bool
  | .Float => true
  | .Double => true
  | _ => false

/-- An integral native target type `T` of `extractValue`: its
`std::numeric_limits` range. -/
structure NativeIntType where
  min : ℤ
  max : ℤ
  deriving DecidableEq, Repr

/-- The conversion performed by the typed `NSNumber` accessor
(`charValue`, `shortValue`, ...): a C integer conversion, i.e. a
two's-complement wrap of the stored integer into the target range. -/
def NativeIntType.wrap (t : NativeIntType) (a : ℤ) : ℤ :=
  (a - t.min) % (t.max - t.min + 1) + t.min

/-- `int8_t` as a `NativeIntType`. -/
def int8T : NativeIntType := ⟨-128, 127⟩

/-- `uint8_t` as a `NativeIntType`. -/
def uint8T : NativeIntType := ⟨0, 255⟩

/-- Failure conditions of `extractValue`; both `ET_CHECK_MSG` and
`ET_DCHECK_MSG` are modelled as fatal checks (the latter is generous: it is
compiled out of release builds). -/
inductive UtilsError where
  | floatToIntegralConversion
  | valueOutOfRange
  deriving DecidableEq, Repr

/-- `extractValue<T>` (lines 53-94) specialized to an integral target `T`
(so `isIntegralType(CppTypeToScalarType<T>::value, true)` is `true`): first
the `ET_CHECK_MSG` rejecting a floating source tag, then the accessor
conversion (`value` now has type `T`, i.e. it is already wrapped into `T`'s
range), then the `ET_DCHECK_MSG` range check comparing that converted value
against `numeric_limits<T>`. -/
def extractValue (t : NativeIntType) (number : NSNumber) :
    Except UtilsError ℤ :=
  if isFloatingType (deduceScalarType number) then
    .error .floatToIntegralConversion
  else
    let value := t.wrap number.ival
    if t.min ≤ value ∧ value ≤ t.max then .ok value
    else .error .valueOutOfRange

/-! Helper lemmas about the 32-bit wrap. -/

lemma wrap32_eq_self {a : ℤ} (h : inI32 a) : wrap32 a = a := by
  rcases h with ⟨h1, h2⟩
  unfold wrap32
  omega

lemma wrap32_wrap32_add (a b : ℤ) : wrap32 (wrap32 a + b) = wrap32 (a + b) := by
  unfold wrap32
  omega

lemma wrap32_idem (a : ℤ) : wrap32 (wrap32 a) = wrap32 a := by
  unfold wrap32
  omega

/-- Closed form of the accumulation loop when every intermediate 32-bit store
is in range: the wraps are no-ops and the fold computes the exact running
sums. -/
lemma foldl_accumStep_eq (xs : List ℤ) : ∀ a b : ℤ,
    (∀ v ∈ xs, inI32 (v * v)) →
    (∀ k ≤ xs.length, inI32 (a + ((xs.take k).sum)) ∧
      inI32 (b + ((xs.take k).map (fun v => v * v)).sum)) →
    xs.foldl accumStep (a, b) = (a + xs.sum, b + (xs.map (fun v => v * v)).sum) := by
  induction xs with
  | nil => intro a b _ _; simp
  | cons v t ih =>
    intro a b hv hs
    have hv1 : inI32 (v * v) := hv v (List.mem_cons_self v t)
    have h1 : inI32 (a + v) ∧ inI32 (b + v * v) := by
      simpa using hs 1 (by simp)
    have hstep : accumStep (a, b) v = (a + v, b + v * v) := by
      unfold accumStep
      rw [wrap32_eq_self hv1, wrap32_eq_self h1.1, wrap32_eq_self h1.2]
    rw [List.foldl_cons, hstep,
      ih (a + v) (b + v * v) (fun w hw => hv w (List.mem_cons_of_mem v hw))
        (fun k hk => by
          simpa [add_assoc] using hs (k + 1) (by simp only [List.length_cons]; omega))]
    simp [add_assoc]

lemma sum_map_sub_const (z : ℤ) (xs : List ℤ) :
    (xs.map (fun x => x - z)).sum = xs.sum - xs.length * z := by
  induction xs with
  | nil => simp
  | cons v t ih =>
    simp only [List.map_cons, List.sum_cons, List.length_cons, ih]
    push_cast
    ring

lemma sum_map_sub_sq (z : ℤ) (xs : List ℤ) :
    (xs.map (fun x => (x - z) * (x - z))).sum
      = xs.length * z * z + (xs.map (fun v => v * v)).sum - 2 * xs.sum * z := by
  induction xs with
  | nil => simp
  | cons v t ih =>
    simp only [List.map_cons, List.sum_cons, List.length_cons, ih]
    push_cast
    ring

/-- C2: for every row of quantized codes with zero-point `z`, the engine's
integer accumulation (initialize `sq_sum` to `n·z²`, add each `x_j²` and each
`x_j`, then subtract `2·z·S` from `sq_sum` and `n·z` from `S`) yields exactly
the directly computed `Σ(x_j − z)²` and `Σ(x_j − z)`, provided no 32-bit
accumulator store overflows (every partial sum, the wrapped products, and the
final compensated values are `int32_t`-representable). -/
theorem rowAccum_zero_point_compensation (z : ℤ) (xs : List ℤ)
    (hv : ∀ v ∈ xs, inI32 (v * v))
    (hs : ∀ k ≤ xs.length, inI32 ((xs.take k).sum) ∧
      inI32 ((xs.length : ℤ) * z * z + ((xs.take k).map (fun v => v * v)).sum))
    (h2s : inI32 (2 * xs.sum))
    (hf1 : inI32 (xs.sum - (xs.length : ℤ) * z))
    (hf2 : inI32 ((xs.length : ℤ) * z * z + (xs.map (fun v => v * v)).sum
      - 2 * xs.sum * z)) :
    rowAccum z xs = ((xs.map (fun x => x - z)).sum,
      (xs.map (fun x => (x - z) * (x - z))).sum) := by
  have h0 : inI32 ((xs.length : ℤ) * z * z) := by
    simpa using (hs 0 (by omega)).2
  simp only [rowAccum]
  rw [wrap32_eq_self h0,
    foldl_accumStep_eq xs 0 ((xs.length : ℤ) * z * z) hv
      (fun k hk => by simpa using hs k hk)]
  simp only [zero_add]
  rw [wrap32_eq_self h2s, wrap32_eq_self hf1, wrap32_eq_self hf2,
    sum_map_sub_const, sum_map_sub_sq]

/-- Witness for C2 at the concrete row `[10, 10, 10, 10]`, zero-point 10. -/
theorem rowAccum_zero_point_compensation_witness :
    rowAccum 10 [10, 10, 10, 10] = (([10, 10, 10, 10].map (fun x => x - 10)).sum,
      ([10, 10, 10, 10].map (fun x => (x - 10) * (x - 10))).sum) :=
  rowAccum_zero_point_compensation 10 [10, 10, 10, 10] (by decide) (by decide)
    (by decide) (by decide) (by decide)

/-! Closed form of the accumulation on a constant maximal row (used to settle
the overflow-boundary claim). -/

/-- The accumulation loop on a constant row, with wrapped initial state:
each 32-bit store keeps the state congruent to the exact running sums. -/
lemma foldl_accumStep_replicate (c : ℤ) (hc : inI32 (c * c)) :
    ∀ (n : ℕ) (a b : ℤ), (List.replicate n c).foldl accumStep (wrap32 a, wrap32 b)
      = (wrap32 (a + n * c), wrap32 (b + n * (c * c))) := by
  intro n
  induction n with
  | zero => intro a b; simp
  | succ m ih =>
    intro a b
    rw [List.replicate_succ, List.foldl_cons]
    have hstep : accumStep (wrap32 a, wrap32 b) c = (wrap32 (a + c), wrap32 (b + c * c)) := by
      unfold accumStep
      rw [wrap32_eq_self hc, wrap32_wrap32_add, wrap32_wrap32_add]
    rw [hstep, ih (a + c) (b + c * c)]
    have h1 : a + c + m * c = a + (m + 1 : ℕ) * c := by push_cast; ring
    have h2 : b + c * c + m * (c * c) = b + (m + 1 : ℕ) * (c * c) := by push_cast; ring
    rw [h1, h2]

/-- `rowAccum` on a constant row with zero-point 0: the final pair is the
32-bit wrap of the exact sums. -/
lemma rowAccum_replicate_zero_zp (c : ℤ) (hc : inI32 (c * c)) (n : ℕ) :
    rowAccum 0 (List.replicate n c) = (wrap32 (n * c), wrap32 (n * (c * c))) := by
  simp only [rowAccum, List.length_replicate]
  have h0 : ((n : ℤ) * 0 * 0) = 0 := by ring
  rw [h0]
  have hz : (0 : ℤ) = wrap32 0 := by decide
  rw [show ((0 : ℤ), wrap32 0) = (wrap32 0, wrap32 0) from by rw [← hz],
    foldl_accumStep_replicate c hc n 0 0]
  simp only [zero_add, mul_zero, sub_zero]
  rw [wrap32_idem, wrap32_idem]

/-- C3 counterexample: with 8-bit unsigned maximal codes (255) and zero-point
0, a row of length 33026 overflows the 32-bit `sq_sum` accumulator: the
accumulated squared sum is not the direct `Σ(x_j − 0)²`. -/
theorem rowAccum_overflow_counterexample :
    (rowAccum 0 (List.replicate 33026 255)).2 ≠
      ((List.replicate 33026 (255 : ℤ)).map (fun x => (x - 0) * (x - 0))).sum := by
  rw [rowAccum_replicate_zero_zp 255 (by decide) 33026]
  simp only [List.map_replicate, List.sum_replicate, smul_eq_mul]
  decide

/-- C3 as amended: the accumulators are 32-bit, so exactness of the maximal-
code accumulation holds only below the overflow boundary
`row_length · 255² < 2³¹` (for 8-bit unsigned codes with zero-point 0), not
for every row length the tensor model allows. -/
theorem rowAccum_exact_below_overflow_bound (n : ℕ)
    (h : (n : ℤ) * 65025 < 2 ^ 31) :
    rowAccum 0 (List.replicate n 255) = (255 * (n : ℤ), 65025 * (n : ℤ)) := by
  have hn : (0 : ℤ) ≤ (n : ℤ) := Int.natCast_nonneg n
  have h255 : (n : ℤ) * 255 < 2 ^ 31 := by nlinarith
  rw [rowAccum_replicate_zero_zp 255 (by decide) n]
  rw [wrap32_eq_self ⟨by nlinarith, by nlinarith⟩,
    wrap32_eq_self ⟨by nlinarith, by nlinarith⟩]
  rw [Prod.mk.injEq]
  constructor <;> ring

/-- Witness for the amended C3 at row length 4. -/
theorem rowAccum_exact_below_overflow_bound_witness :
    rowAccum 0 (List.replicate 4 255) = (1020, 260100) := by
  simpa using rowAccum_exact_below_overflow_bound 4 (by norm_num)

/-- C1: for the concrete scenario — 8-bit unsigned input row `[10,10,10,10]`,
input scale 1.0, input zero-point 10, weight `[1,1,1,1]`, bias `[0,0,0,0]`,
eps 1e-5, output scale 1.0, output zero-point 0 — the dequantized values are
all 0, the mean is 0, the variance is 0, and the engine outputs `[0,0,0,0]`
(for every value of the inverse-square-root primitive, since the normalized
values all vanish). -/
theorem quantized_layer_norm_concrete_scenario (invSqrt : ℚ → ℚ) :
    dequantize 10 1 10 = 0 ∧
    rowMean 1 4 (rowAccum 10 [10, 10, 10, 10]).1 = 0 ∧
    rowVariance 1 4 (rowAccum 10 [10, 10, 10, 10]).2
      (rowMean 1 4 (rowAccum 10 [10, 10, 10, 10]).1) = 0 ∧
    quantized_layer_norm_per_tensor_ invSqrt .Byte [10, 10, 10, 10] 1 10 [1, 1, 1, 1]
      [0, 0, 0, 0] (1 / 100000) 1 0 1 4 = [0, 0, 0, 0] := by
  have hacc : rowAccum 10 [10, 10, 10, 10] = (0, 0) := by decide
  refine ⟨by norm_num [dequantize], by rw [hacc]; norm_num [rowMean],
    by rw [hacc]; norm_num [rowMean, rowVariance], ?_⟩
  simp [quantized_layer_norm_per_tensor_, List.range_succ, hacc, rowMean, rowVariance,
    rowInvStdArg, dequantize, quantize, dtypeMin, dtypeMax]

/-- C4: any invocation whose input dtype is outside the compiled support set
is aborted with `UnsupportedDType` before any computation or output write, in
both entry-point variants. -/
theorem unsupported_dtype_aborts (invSqrt : ℚ → ℚ) (input : QTensor)
    (in_scale : FTensor) (in_zero_point : LTensor) (in_scale_s : ℚ) (in_zp_s : ℤ)
    (normalized_shape : List ℕ) (weight bias : List ℚ) (eps output_scale : ℚ)
    (output_zero_point : ℤ) (out : QTensor)
    (h : input.dtype ∉ supportedQuantizedTypes) :
    quantized_layer_norm_out invSqrt input in_scale in_zero_point normalized_shape
      weight bias eps output_scale output_zero_point out
      = .error .UnsupportedDType ∧
    quantized_layer_norm_per_tensor_out invSqrt input in_scale_s in_zp_s
      normalized_shape weight bias eps output_scale output_zero_point out
      = .error .UnsupportedDType := by
  rcases input with ⟨d, sizes, data⟩
  cases d <;>
    simp_all [supportedQuantizedTypes, quantized_layer_norm_out,
      quantized_layer_norm_per_tensor_out]

/-- Witness for C4: a `Float`-typed input tensor is rejected by both entry
points. -/
theorem unsupported_dtype_aborts_witness :
    quantized_layer_norm_out (fun q => q) ⟨ScalarType.Float, [4], [0, 0, 0, 0]⟩
      ⟨[1]⟩ ⟨[0]⟩ [4] [1, 1, 1, 1] [0, 0, 0, 0] 1 1 0
      ⟨ScalarType.Float, [4], [0, 0, 0, 0]⟩ = .error .UnsupportedDType ∧
    quantized_layer_norm_per_tensor_out (fun q => q)
      ⟨ScalarType.Float, [4], [0, 0, 0, 0]⟩ 1 0 [4] [1, 1, 1, 1] [0, 0, 0, 0] 1 1 0
      ⟨ScalarType.Float, [4], [0, 0, 0, 0]⟩ = .error .UnsupportedDType :=
  unsupported_dtype_aborts (fun q => q) ⟨ScalarType.Float, [4], [0, 0, 0, 0]⟩
    ⟨[1]⟩ ⟨[0]⟩ 1 0 [4] [1, 1, 1, 1] [0, 0, 0, 0] 1 1 0
    ⟨ScalarType.Float, [4], [0, 0, 0, 0]⟩ (by decide)

/-- C5 counterexample: on the tensor-valued path the scale is read into a
32-bit `float` variable, not consumed at 64-bit precision: the extracted
scale of a concrete one-element scale tensor is not `f64`-tagged. -/
theorem extract_scale_not_f64 :
    (extractQuantParams ⟨[1]⟩ ⟨[0]⟩).1.isF64 = false := rfl

/-- C5 as amended: the tensor-valued quantization-parameter extractor
resolves the scale to a 32-bit float (`float input_scale`, read from the
scale tensor's `float` buffer) and the zero-point to an `int64`, taking the
first element of each single-element tensor. -/
theorem extract_scale_f32_zero_point_i64 (in_scale : FTensor)
    (in_zero_point : LTensor) :
    extractQuantParams in_scale in_zero_point
      = (PrecFloat.f32 (in_scale.data.headD 0), in_zero_point.data.headD 0) := rfl

/-- C6: the engine does not clamp a negative computed variance: the value
passed to the inverse-square-root step is exactly `variance + eps`, and in
particular whenever the computed variance is negative the argument is
strictly below `eps` (a clamped implementation would pass exactly `eps`). -/
theorem variance_not_clamped (input_scale eps : ℚ) (n : ℕ) (sq_sum sum : ℤ) :
    rowInvStdArg (rowVariance input_scale n sq_sum (rowMean input_scale n sum)) eps
      = rowVariance input_scale n sq_sum (rowMean input_scale n sum) + eps ∧
    (rowVariance input_scale n sq_sum (rowMean input_scale n sum) < 0 →
      rowInvStdArg (rowVariance input_scale n sq_sum (rowMean input_scale n sum)) eps
        < eps) := by
  refine ⟨rfl, fun h => ?_⟩
  unfold rowInvStdArg
  linarith

/-- Witness for C6: a reachable negative computed variance (a wrapped-over
squared sum of −1) flows into the inverse-square-root argument unclamped. -/
theorem variance_not_clamped_witness :
    rowVariance 1 1 (-1) (rowMean 1 1 0) < 0 ∧
    rowInvStdArg (rowVariance 1 1 (-1) (rowMean 1 1 0)) 1 < 1 := by
  have hneg : rowVariance 1 1 (-1) (rowMean 1 1 0) < 0 := by
    norm_num [rowVariance, rowMean]
  exact ⟨hneg, (variance_not_clamped 1 1 1 (-1) 0).2 hneg⟩

/-- C7 counterexample: a `normalized_shape` argument that does not describe
the trailing dimension (here `[3]` against a trailing dimension of 4) is not
rejected — the entry point computes and returns the output row. -/
theorem normalized_shape_mismatch_accepted :
    quantized_layer_norm_per_tensor_out (fun _ => 1) ⟨ScalarType.Byte, [4], [10, 10, 10, 10]⟩
      1 10 [3] [1, 1, 1, 1] [0, 0, 0, 0] (1 / 100000) 1 0
      ⟨ScalarType.Byte, [4], [0, 0, 0, 0]⟩ = .ok [0, 0, 0, 0] := by
  have hacc : rowAccum 10 [10, 10, 10, 10] = (0, 0) := by decide
  have hld : getLeadingDims [4] = 1 := by decide
  have hlast : lastDimOf [4] = 4 := by decide
  show Except.ok (quantized_layer_norm_per_tensor_ (fun _ => 1) .Byte [10, 10, 10, 10]
    1 10 [1, 1, 1, 1] [0, 0, 0, 0] (1 / 100000) 1 0 (getLeadingDims [4]) (lastDimOf [4]))
    = Except.ok [0, 0, 0, 0]
  rw [hld, hlast]
  simp [quantized_layer_norm_per_tensor_, List.range_succ, hacc, rowMean, rowVariance,
    rowInvStdArg, dequantize, quantize, dtypeMin, dtypeMax]

/-- C7 as amended: `normalized_shape` is accepted unvalidated and ignored
(`__ET_UNUSED`): both entry points return identical results for any two
values of it, and never reject on its account. -/
theorem normalized_shape_ignored (invSqrt : ℚ → ℚ) (input : QTensor)
    (in_scale : FTensor) (in_zero_point : LTensor) (in_scale_s : ℚ) (in_zp_s : ℤ)
    (ns ns' : List ℕ) (weight bias : List ℚ) (eps output_scale : ℚ)
    (output_zero_point : ℤ) (out : QTensor) :
    quantized_layer_norm_out invSqrt input in_scale in_zero_point ns
      weight bias eps output_scale output_zero_point out
      = quantized_layer_norm_out invSqrt input in_scale in_zero_point ns'
        weight bias eps output_scale output_zero_point out ∧
    quantized_layer_norm_per_tensor_out invSqrt input in_scale_s in_zp_s ns
      weight bias eps output_scale output_zero_point out
      = quantized_layer_norm_per_tensor_out invSqrt input in_scale_s in_zp_s ns'
        weight bias eps output_scale output_zero_point out :=
  ⟨rfl, rfl⟩

/-- C8: round-trip — for every code representable in the destination dtype
and every positive scale, quantizing the dequantized value with the exact
reciprocal scale recovers the code (the exactly-representable-`1/scale`
case of the claim; over `ℚ` the reciprocal is always exact). -/
theorem quantize_dequantize_round_trip (dtype : ScalarType) (c : ℤ) (scale : ℚ)
    (zero_point : ℤ) (hs : 0 < scale) (hc1 : dtypeMin dtype ≤ c)
    (hc2 : c ≤ dtypeMax dtype) :
    quantize dtype (dequantize c scale zero_point) (1 / scale) zero_point = c := by
  unfold quantize dequantize
  have hne : scale ≠ 0 := ne_of_gt hs
  have h1 : ((c : ℚ) - (zero_point : ℚ)) * scale * (1 / scale)
      = ((c - zero_point : ℤ) : ℚ) := by
    push_cast
    field_simp
  rw [h1, round_intCast, Int.sub_add_cancel, min_eq_right hc2, max_eq_right hc1]

/-- Witness for C8: 8-bit unsigned code 100, scale 3, zero-point 7. -/
theorem quantize_dequantize_round_trip_witness :
    quantize ScalarType.Byte (dequantize 100 3 7) (1 / 3) 7 = 100 :=
  quantize_dequantize_round_trip ScalarType.Byte 100 3 7 (by norm_num)
    (by decide) (by decide)

/-- C9: evidence for the conversion-utility bug.  The floating-to-integral
rejection fires, but an out-of-range integral value is not rejected: the
accessor converts (wraps) the boxed int 1000 to the `int8_t` −24 first, and
the subsequent range check compares the already-converted value against
`numeric_limits<int8_t>`, which cannot fail — so −24 is returned instead of
an error. -/
theorem extractValue_accepts_out_of_range :
    extractValue int8T ⟨ObjCTypeTag.i, 1000⟩ = .ok (-24) ∧
    extractValue int8T ⟨ObjCTypeTag.d, 1000⟩ = .error .floatToIntegralConversion := by
  constructor <;> rfl

/-- Every quantized output code lies between the destination dtype's min and
max (the saturation bounds), provided the dtype's range is nonempty. -/
lemma quantize_mem_range {d : ScalarType} (hd : dtypeMin d ≤ dtypeMax d)
    (v iv : ℚ) (zp : ℤ) :
    dtypeMin d ≤ quantize d v iv zp ∧ quantize d v iv zp ≤ dtypeMax d := by
  unfold quantize
  exact ⟨le_max_left _ _, max_le hd (min_le_left _ _)⟩

/-- Every element of the engine's output buffer is a `quantize` result for
the dispatched storage type. -/
lemma mem_engine_is_quantize (invSqrt : ℚ → ℚ) (dtype : ScalarType)
    (input : List ℤ) (input_scale : ℚ) (input_zero_point : ℤ)
    (weight bias : List ℚ) (eps output_scale : ℚ) (output_zero_point : ℤ)
    (leading_dims last_dim : ℕ) :
    ∀ y ∈ quantized_layer_norm_per_tensor_ invSqrt dtype input input_scale
      input_zero_point weight bias eps output_scale output_zero_point
      leading_dims last_dim,
      ∃ v, y = quantize dtype v (1 / output_scale) output_zero_point := by
  intro y hy
  simp only [quantized_layer_norm_per_tensor_, List.mem_flatMap, List.mem_map,
    List.mem_range] at hy
  obtain ⟨i, _, j, _, rfl⟩ := hy
  exact ⟨_, rfl⟩

/-- C10: both entry points dispatch on the input tensor's dtype tag alone and
write the output buffer through the input's storage type: the result is
unchanged under any change of the output tensor argument (its dtype tag is
never consulted), and every written element is a quantize result saturated to
the input dtype's range. -/
theorem output_buffer_follows_input_dtype (invSqrt : ℚ → ℚ) (input : QTensor)
    (in_scale_t : FTensor) (in_zp_t : LTensor) (in_scale : ℚ) (in_zp : ℤ)
    (ns : List ℕ) (weight bias : List ℚ) (eps output_scale : ℚ)
    (output_zero_point : ℤ) (out out' : QTensor) (ys zs : List ℤ)
    (h : quantized_layer_norm_per_tensor_out invSqrt input in_scale in_zp ns
      weight bias eps output_scale output_zero_point out = .ok ys)
    (h2 : quantized_layer_norm_out invSqrt input in_scale_t in_zp_t ns
      weight bias eps output_scale output_zero_point out = .ok zs) :
    (quantized_layer_norm_per_tensor_out invSqrt input in_scale in_zp ns
      weight bias eps output_scale output_zero_point out
      = quantized_layer_norm_per_tensor_out invSqrt input in_scale in_zp ns
        weight bias eps output_scale output_zero_point out' ∧
     quantized_layer_norm_out invSqrt input in_scale_t in_zp_t ns
      weight bias eps output_scale output_zero_point out
      = quantized_layer_norm_out invSqrt input in_scale_t in_zp_t ns
        weight bias eps output_scale output_zero_point out') ∧
    (∀ y ∈ ys, dtypeMin input.dtype ≤ y ∧ y ≤ dtypeMax input.dtype) ∧
    (∀ y ∈ zs, dtypeMin input.dtype ≤ y ∧ y ≤ dtypeMax input.dtype) := by
  rcases input with ⟨d, sizes, data⟩
  refine ⟨⟨rfl, rfl⟩, ?_, ?_⟩
  · cases d
    all_goals
      simp only [quantized_layer_norm_per_tensor_out, Except.ok.injEq,
        reduceCtorEq] at h
    all_goals
      intro y hy
      rw [← h] at hy
      obtain ⟨v, rfl⟩ := mem_engine_is_quantize _ _ _ _ _ _ _ _ _ _ _ _ y hy
      exact quantize_mem_range (by norm_num [dtypeMin, dtypeMax]) _ _ _
  · cases d
    all_goals
      simp only [quantized_layer_norm_out, quantized_layer_norm_,
        Except.ok.injEq, reduceCtorEq] at h2
    all_goals
      intro y hy
      rw [← h2] at hy
      obtain ⟨v, rfl⟩ := mem_engine_is_quantize _ _ _ _ _ _ _ _ _ _ _ _ y hy
      exact quantize_mem_range (by norm_num [dtypeMin, dtypeMax]) _ _ _

/-- Witness for C10: a concrete Byte run; the result is unchanged when the
output tensor argument is swapped for one with a different dtype tag, and the
written element lies in the Byte range. -/
theorem output_buffer_follows_input_dtype_witness :
    (quantized_layer_norm_per_tensor_out (fun _ => 1) ⟨ScalarType.Byte, [1], [0]⟩ 1 0 [1]
      [1] [0] 1 1 0 ⟨ScalarType.Byte, [1], [0]⟩
      = quantized_layer_norm_per_tensor_out (fun _ => 1) ⟨ScalarType.Byte, [1], [0]⟩ 1 0 [1]
        [1] [0] 1 1 0 ⟨ScalarType.Char, [2], [5]⟩ ∧
     quantized_layer_norm_out (fun _ => 1) ⟨ScalarType.Byte, [1], [0]⟩ ⟨[1]⟩ ⟨[0]⟩ [1]
      [1] [0] 1 1 0 ⟨ScalarType.Byte, [1], [0]⟩
      = quantized_layer_norm_out (fun _ => 1) ⟨ScalarType.Byte, [1], [0]⟩ ⟨[1]⟩ ⟨[0]⟩ [1]
        [1] [0] 1 1 0 ⟨ScalarType.Char, [2], [5]⟩) ∧
    (∀ y ∈ [(0 : ℤ)], dtypeMin ScalarType.Byte ≤ y ∧ y ≤ dtypeMax ScalarType.Byte) ∧
    (∀ y ∈ [(0 : ℤ)], dtypeMin ScalarType.Byte ≤ y ∧ y ≤ dtypeMax ScalarType.Byte) := by
  have hacc : rowAccum 0 [0] = (0, 0) := by decide
  have hld : getLeadingDims [1] = 1 := by decide
  have hlast : lastDimOf [1] = 1 := by decide
  have h : quantized_layer_norm_per_tensor_out (fun _ => 1)
      ⟨ScalarType.Byte, [1], [0]⟩ 1 0 [1] [1] [0] 1 1 0 ⟨ScalarType.Byte, [1], [0]⟩
      = .ok [0] := by
    show Except.ok (quantized_layer_norm_per_tensor_ (fun _ => 1) .Byte [0] 1 0 [1] [0]
      1 1 0 (getLeadingDims [1]) (lastDimOf [1])) = Except.ok [0]
    rw [hld, hlast]
    simp [quantized_layer_norm_per_tensor_, List.range_succ, hacc, rowMean, rowVariance,
      rowInvStdArg, dequantize, quantize, dtypeMin, dtypeMax]
  have h2 : quantized_layer_norm_out (fun _ => 1)
      ⟨ScalarType.Byte, [1], [0]⟩ ⟨[1]⟩ ⟨[0]⟩ [1] [1] [0] 1 1 0 ⟨ScalarType.Byte, [1], [0]⟩
      = .ok [0] := by
    show Except.ok (quantized_layer_norm_ (fun _ => 1) .Byte [0] ⟨[1]⟩ ⟨[0]⟩ [1] [0]
      1 1 0 (getLeadingDims [1]) (lastDimOf [1])) = Except.ok [0]
    rw [hld, hlast]
    simp [quantized_layer_norm_, extractQuantParams, PrecFloat.val,
      quantized_layer_norm_per_tensor_, List.range_succ, hacc, rowMean, rowVariance,
      rowInvStdArg, dequantize, quantize, dtypeMin, dtypeMax]
  exact output_buffer_follows_input_dtype (fun _ => 1) ⟨ScalarType.Byte, [1], [0]⟩
    ⟨[1]⟩ ⟨[0]⟩ 1 0 [1] [1] [0] 1 1 0 ⟨ScalarType.Byte, [1], [0]⟩
    ⟨ScalarType.Char, [2], [5]⟩ [0] [0] h h2
